import Mathlib

/-!
# Verification of the T-Bot relay core (src/Python/src/T-Bot.py)

Shallow embedding of the per-item retry/state machine, the error
classification and notification gate, the grouping algorithm, and the
batch-upload pipeline of `T-Bot.py`.  Python dictionaries with optional
keys are embedded as structures with `Option` fields; in-place mutation
becomes explicit state passing; network calls (requests / telegram /
lark webhook) are oracles supplied as explicit arguments; `datetime.now`
is an explicit `now : Nat` clock argument, and the formatted publish
time (an external date helper) is carried as an already-formatted field.
Text is embedded as `List Char` so that Python slicing (including
negative slice bounds) is modelled exactly.
-/

/-- The `Config.TELEGRAM_LIMITS['images']` — 10 MiB byte ceiling for images. -/
def TELEGRAM_LIMIT_IMAGES : Nat := 10 * 1024 * 1024

/-- The `Config.TELEGRAM_LIMITS['videos']` — 50 MiB byte ceiling for videos. -/
def TELEGRAM_LIMIT_VIDEOS : Nat := 50 * 1024 * 1024

/-- The `Config.TELEGRAM_LIMITS['caption']` — caption length cap. -/
def TELEGRAM_LIMIT_CAPTION : Nat := 1024

/-- The `Config.TELEGRAM_LIMITS['media_group']` — max files per media group. -/
def TELEGRAM_LIMIT_MEDIA_GROUP : Nat := 10

/-- The `Config.MAX_DOWNLOAD_ATTEMPTS`. -/
def MAX_DOWNLOAD_ATTEMPTS : Nat := 10

/-- The `Config.ERROR_TRUNCATE` — error-message truncation length for logs/alerts. -/
def ERROR_TRUNCATE : Nat := 50

/-- The `Config.NOTIFICATION_TRUNCATE` — notification truncation length. -/
def NOTIFICATION_TRUNCATE : Nat := 200

/-- The `media_type` values handled by the bot. -/
inductive MediaType : Type
  | images
  | videos
  | spaces
  | broadcasts
deriving DecidableEq, Repr

/-- The `item['media_type'] in ['spaces', 'broadcasts']`. -/
def is_special_type (m : MediaType) : Bool :=
  m = MediaType.spaces ∨ m = MediaType.broadcasts

/-- The `item['media_type'] in ['images', 'videos']`. -/
def is_media_kind (m : MediaType) : Bool :=
  m = MediaType.images ∨ m = MediaType.videos

/-- Per-kind byte ceiling, `Config.TELEGRAM_LIMITS[media_type]`
(only consulted for images/videos in the source). -/
def telegram_size_limit : MediaType → Nat
  | MediaType.images => TELEGRAM_LIMIT_IMAGES
  | MediaType.videos => TELEGRAM_LIMIT_VIDEOS
  | MediaType.spaces => 0
  | MediaType.broadcasts => 0

/-- Upload-side `error_type` strings. -/
inductive UploadErrorType : Type
  | file_too_large
  | max_download_attempts
  | api_error
deriving DecidableEq, Repr

/-- The item's `download_info` dictionary.  Every key is optional because
the Python dict can lack any of them (`setdefault`/`get` with defaults). -/
structure DownloadInfo : Type where
  success : Option Bool
  error_type : Option String
  message : Option (List Char)
  timestamp : Option Nat
  download_attempts : Option Nat
  size_bytes : Option Nat
deriving DecidableEq, Repr

/-- A `download_info` with no keys set (`{}`). -/
def emptyDownloadInfo : DownloadInfo :=
  { success := none, error_type := none, message := none, timestamp := none,
    download_attempts := none, size_bytes := none }

/-- The item's `upload_info` dictionary; keys optional as above. -/
structure UploadInfo : Type where
  success : Option Bool
  error_type : Option UploadErrorType
  message : Option (List Char)
  timestamp : Option Nat
  notification_sent : Option Bool
  message_id : Option Nat
deriving DecidableEq, Repr

/-- An `upload_info` with no keys set (`{}`). -/
def emptyUploadInfo : UploadInfo :=
  { success := none, error_type := none, message := none, timestamp := none,
    notification_sent := none, message_id := none }

/-- One content item (one JSON record of the persisted work queue).
`disk_size` stands for the external filesystem: it is the byte size
`os.path.getsize` reports for `download_path / file_name`, `none` when no
such file exists (so that `getsize` raises).  `publish_time_fmt` is the
already-formatted publish time (`strftime` of the external date helper).
The source stores a rounded MiB figure `size_mb` derived from the raw
byte size; the embedding keeps the raw byte size. -/
structure Item : Type where
  file_name : String
  tweet_id : Option Nat
  media_type : MediaType
  url : String
  screen_name : List Char
  user_name : List Char
  publish_time_fmt : List Char
  full_text : List Char
  is_downloaded : Bool
  download_info : Option DownloadInfo
  is_uploaded : Bool
  upload_info : Option UploadInfo
  disk_size : Option Nat
deriving DecidableEq, Repr

/-- Upload-side errors reaching `_handle_upload_error`: the dedicated
`FileTooLargeError`, or any other exception (carrying its class name and
`str(error)`). -/
inductive UError : Type
  | fileTooLarge (msg : List Char)
  | apiError (cls : String) (msg : List Char)
deriving DecidableEq, Repr

/-- The `str(error)` for an upload error. -/
def uerror_msg : UError → List Char
  | UError.fileTooLarge m => m
  | UError.apiError _ m => m

/-- The error classification performed at the top of
`_handle_upload_error`: `FileTooLargeError → 'file_too_large'`,
everything else → `'api_error'`. -/
def classify_error : UError → UploadErrorType
  | UError.fileTooLarge _ => UploadErrorType.file_too_large
  | UError.apiError _ _ => UploadErrorType.api_error

/-- Outward notifications sent through the lark webhook
(`Notifier.send_lark_alert`): the once-per-condition alert of
`_send_unrecoverable_alert`, and the immediate per-failure alert fired by
`_handle_upload_error` for `api_error`. -/
inductive Alert : Type
  | unrecoverable (file : String) (etype : UploadErrorType)
  | uploadFail (file : String)
deriving DecidableEq, Repr

/-- The `download_info.get('download_attempts', 0)` of an item (with
`setdefault('download_info', {})` folded in). -/
def attempts_of (it : Item) : Nat :=
  ((it.download_info.getD emptyDownloadInfo).download_attempts).getD 0

/-- Upload-side `error_type` of an item (`item.get('upload_info', {})
.get('error_type')`). -/
def upload_error_type (it : Item) : Option UploadErrorType :=
  (it.upload_info.getD emptyUploadInfo).error_type

/-- Upload-side `notification_sent` flag read as Python truthiness
(absent key counts as false). -/
def notif_flag (it : Item) : Bool :=
  ((it.upload_info.getD emptyUploadInfo).notification_sent).getD false

/-!
## Download state machine (`DownloadManager`)

`requests.get` / file writing is the external Fetcher; one
`DownloadManager.process_item` call consumes one `FetchRes` oracle value
when (and only when) it actually performs the fetch.
-/

/-- Result of the external fetch (`_download_file`): the byte size of the
downloaded file, or the failure's `str(error)`. -/
inductive FetchRes : Type
  | ok (size : Nat)
  | err (msg : List Char)
deriving DecidableEq, Repr

/-- The `DownloadManager._handle_special_type`: idempotent no-op when already
downloaded, otherwise marks downloaded with a fresh success record. -/
def handle_special_type (now : Nat) (it : Item) : Item :=
  if it.is_downloaded then it
  else
    { it with
      is_downloaded := true,
      download_info := some
        { success := some true, error_type := none, message := none,
          timestamp := some now, download_attempts := some 0,
          size_bytes := some 0 } }

/-- Message `'连续下载失败10次'` — the fixed text recorded on download
exhaustion. -/
def max_attempts_message : List Char :=
  "连续下载失败10次".toList

/-- The `DownloadManager._handle_max_attempts`: writes the download-exhaustion
condition into the item's `upload_info` slot, preserving a pre-existing
`timestamp` and `notification_sent` when the old `upload_info` has them. -/
def handle_max_attempts (now : Nat) (it : Item) : Item :=
  let made (ts : Nat) (ns : Bool) : UploadInfo :=
    { success := some false,
      error_type := some UploadErrorType.max_download_attempts,
      message := some max_attempts_message,
      timestamp := some ts, notification_sent := some ns, message_id := none }
  match it.upload_info with
  | some existing =>
      let info := made (existing.timestamp.getD now) (existing.notification_sent.getD false)
      { it with upload_info := some info }
  | none =>
      { it with upload_info := some (made now false) }

/-- The `DownloadManager._handle_download_success`: replaces `download_info`
wholesale, resets the attempt counter, sets `is_downloaded`; the fetched
bytes are now on disk, so `disk_size` becomes the fetched size. -/
def handle_download_success (now : Nat) (size : Nat) (it : Item) : Item :=
  { it with
    is_downloaded := true,
    disk_size := some size,
    download_info := some
      { success := some true, error_type := none, message := none,
        timestamp := some now, download_attempts := some 0,
        size_bytes := some size } }

/-- The `DownloadManager._handle_download_failure`: updates `download_info`
in place (other keys such as the recorded size survive), increments the
attempt counter, and records the transient failure. -/
def handle_download_failure (now : Nat) (msg : List Char) (it : Item) : Item :=
  let di := it.download_info.getD emptyDownloadInfo
  { it with
    download_info := some
      { success := some false, error_type := some ("download_error"),
        message := some msg, timestamp := some now,
        download_attempts := some ((di.download_attempts.getD 0) + 1),
        size_bytes := di.size_bytes } }

/-- The `DownloadManager.process_item`.  Returns the updated item and whether
a fetch was performed (i.e. whether the Fetcher oracle was consumed).
Branch order mirrors the source: special type first, then
`_should_skip_download` (already downloaded, then the attempts ceiling),
then the fetch with its success/failure handlers; fetch failures never
propagate past this boundary. -/
def download_process_item (now : Nat) (fr : FetchRes) (it : Item) : Item × Bool :=
  if is_special_type it.media_type then
    (handle_special_type now it, false)
  else if it.is_downloaded then
    (it, false)
  else if MAX_DOWNLOAD_ATTEMPTS ≤ attempts_of it then
    (handle_max_attempts now it, false)
  else
    match fr with
    | FetchRes.ok size => (handle_download_success now size it, true)
    | FetchRes.err m => (handle_download_failure now m it, true)

/-!
## Caption building (`UploadManager._build_caption`)
-/

/-- Python list/string slicing `s[:n]` including negative bounds:
for `n < 0` it keeps all but the last `|n|` elements (empty when
`|n| ≥ len`). -/
def py_slice_to (n : Int) (s : List Char) : List Char :=
  if 0 ≤ n then s.take n.toNat
  else s.take (s.length - (-n).toNat)

/-- The `base_info` of `_build_caption`:
`f"#{screen_name} {name}\n{publish_time}"`. -/
def caption_base_info (it : Item) : List Char :=
  ('#') :: it.screen_name ++ (' ') :: it.user_name ++ ('\n') :: it.publish_time_fmt

/-- The un-truncated caption the item naturally calls for:
author line, publish time, then the full source text. -/
def natural_caption (it : Item) : List Char :=
  caption_base_info it ++ ('\n') :: it.full_text

/-- The `UploadManager._build_caption`.  `remaining` is a Python int and can
go negative; the slice `text[:remaining - 3]` is a Python slice. -/
def build_caption (it : Item) : List Char :=
  let base_info := caption_base_info it
  let remaining : Int := (TELEGRAM_LIMIT_CAPTION : Int) - (base_info.length : Int) - 1
  let text := it.full_text
  let truncated :=
    if remaining < (text.length : Int) then
      py_slice_to (remaining - 3) text ++ [('.'), ('.'), ('.')]
    else text
  base_info ++ ('\n') :: truncated

/-!
## Upload state machine (`UploadManager`)

`telegram.Bot` is the external Publisher; its responses are supplied as
oracle values: one `Except (String × List Char) (List Nat)` for a
`send_media_group` call (message-id list, or the raised exception's class
name and `str(error)`), and a stream of
`Except (String × List Char) Nat` values for the single-message sends,
consumed one per send actually performed.
-/

/-- The `UploadManager._build_success_info`. -/
def build_success_info (message_id now : Nat) : UploadInfo :=
  { success := some true, error_type := none, message := none,
    timestamp := some now, notification_sent := none,
    message_id := some message_id }

/-- The `UploadManager._build_error_info`: the stored outcome keeps the full
`str(error)` (truncation happens only in logs/alerts). -/
def build_error_info (e : UError) (now : Nat) : UploadInfo :=
  { success := some false, error_type := some (classify_error e),
    message := some (uerror_msg e), timestamp := some now,
    notification_sent := some false, message_id := none }

/-- The `UploadManager._handle_upload_error`: classifies the error, fires an
immediate lark alert for `api_error` (none for `file_too_large`),
replaces `upload_info` with the failure outcome, and resets
`is_downloaded` so the item is re-downloaded on a later run. -/
def handle_upload_error (e : UError) (now : Nat) (it : Item) : Item × List Alert :=
  let alerts : List Alert :=
    match e with
    | UError.fileTooLarge _ => []
    | UError.apiError _ _ => [Alert.uploadFail it.file_name]
  ({ it with upload_info := some (build_error_info e now), is_downloaded := false }, alerts)

/-- The `UploadManager._has_unrecoverable_error`: returns whether the item
carries a terminal condition; on the first observation (falsy
`notification_sent`) it sends the alert and sets the flag in place.
Returns (result, updated item, alerts sent). -/
def has_unrecoverable_error (it : Item) : Bool × Item × List Alert :=
  let ui := it.upload_info.getD emptyUploadInfo
  match ui.error_type with
  | some et =>
      if et = UploadErrorType.file_too_large ∨ et = UploadErrorType.max_download_attempts then
        if (ui.notification_sent.getD false) = false then
          (true,
           { it with upload_info := some { ui with notification_sent := some true } },
           [Alert.unrecoverable it.file_name et])
        else (true, it, [])
      else (false, it, [])
  | none => (false, it, [])

/-- The `UploadManager._should_upload`.  Returns (decision, updated item,
alerts), the updates/alerts coming from `_has_unrecoverable_error`. -/
def should_upload (it : Item) : Bool × Item × List Alert :=
  if it.is_uploaded then (false, it, [])
  else
    let r := has_unrecoverable_error it
    if r.1 then (false, r.2.1, r.2.2)
    else if is_special_type it.media_type then (true, r.2.1, r.2.2)
    else (it.is_downloaded, r.2.1, r.2.2)

/-- The payload handed to the Publisher for one file: the URL for special
kinds, or the opened local file. -/
inductive FilePayload : Type
  | url (u : String)
  | localFile (name : String)
deriving DecidableEq, Repr

/-- The `FileTooLargeError` message
`f"{media_type}大小超标 ({sz}MB > {lim}MB)"` (sizes in integer-divided
MiB, as in the source). -/
def file_too_large_message (mt : MediaType) (sz lim : Nat) : List Char :=
  let kind : List Char :=
    match mt with
    | MediaType.images => "images".toList
    | MediaType.videos => "videos".toList
    | MediaType.spaces => "spaces".toList
    | MediaType.broadcasts => "broadcasts".toList
  kind ++ "大小超标 (".toList ++ (Nat.repr (sz / 1024 / 1024)).toList
    ++ "MB > ".toList ++ (Nat.repr (lim / 1024 / 1024)).toList ++ "MB)".toList

/-- The `UploadManager._get_file`: URL for special kinds; otherwise
`os.path.getsize` (raising when the file is absent, surfaced as an
ordinary exception) followed by the per-kind size check raising
`FileTooLargeError`, then the opened file. -/
def get_file (it : Item) : Except UError FilePayload :=
  if is_special_type it.media_type then Except.ok (FilePayload.url it.url)
  else
    match it.disk_size with
    | none => Except.error (UError.apiError ("FileNotFoundError") ("file not found".toList))
    | some sz =>
        if telegram_size_limit it.media_type < sz then
          Except.error (UError.fileTooLarge
            (file_too_large_message it.media_type sz (telegram_size_limit it.media_type)))
        else Except.ok (FilePayload.localFile it.file_name)

/-- One entry of the media group handed to `send_media_group`
(`InputMediaPhoto` / `InputMediaVideo` with an optional caption). -/
structure MediaEntry : Type where
  payload : FilePayload
  kind : MediaType
  caption : Option (List Char)
deriving DecidableEq, Repr

/-- The state produced by `_prepare_media_group`: each original item with
its per-item mutations and a mark saying whether it was included in the
media group (marks stand for the Python aliasing of `included_items`
into the caller's list), plus the media group itself and the alerts
emitted along the way. -/
structure PrepOut : Type where
  marked : List (Item × Bool)
  media : List MediaEntry
  alerts : List Alert
deriving DecidableEq, Repr

/-- The `UploadManager._prepare_media_group`, as a recursion over the item
list with `cnt = len(media_group)` so far.  Once the count cap is
reached the loop `break`s and the remaining items are left untouched.
Per-item failures (`FileTooLargeError`, missing file) are recorded via
`_handle_upload_error` and exclude only that item. -/
def prepare_media_group (now : Nat) (group_caption : List Char) :
    Nat → List Item → PrepOut
  | _, [] => { marked := [], media := [], alerts := [] }
  | cnt, it :: rest =>
    if TELEGRAM_LIMIT_MEDIA_GROUP ≤ cnt then
      { marked := (it, false) :: rest.map (fun x => (x, false)), media := [], alerts := [] }
    else if it.is_uploaded then
      let r := prepare_media_group now group_caption cnt rest
      { r with marked := (it, false) :: r.marked }
    else
      let u := has_unrecoverable_error it
      if u.1 then
        let r := prepare_media_group now group_caption cnt rest
        { marked := (u.2.1, false) :: r.marked, media := r.media,
          alerts := u.2.2 ++ r.alerts }
      else if is_special_type u.2.1.media_type then
        let r := prepare_media_group now group_caption cnt rest
        { r with marked := (u.2.1, false) :: r.marked }
      else
        match get_file u.2.1 with
        | Except.error e =>
            let h := handle_upload_error e now u.2.1
            let r := prepare_media_group now group_caption cnt rest
            { marked := (h.1, false) :: r.marked, media := r.media,
              alerts := h.2 ++ r.alerts }
        | Except.ok payload =>
            let entry : MediaEntry :=
              { payload := payload, kind := u.2.1.media_type,
                caption := if cnt = 0 then some group_caption else none }
            let r := prepare_media_group now group_caption (cnt + 1) rest
            { marked := (u.2.1, true) :: r.marked, media := entry :: r.media,
              alerts := r.alerts }

/-- The `except` branch of `_process_group`: every not-yet-uploaded item
of the whole group gets `_handle_upload_error` applied with the batch's
exception. -/
def group_failure (e : UError) (now : Nat) (p : PrepOut) : List Item × List Alert :=
  let stepped := p.marked.map fun q =>
    if q.1.is_uploaded then (q.1, ([] : List Alert))
    else handle_upload_error e now q.1
  (stepped.map Prod.fst, p.alerts ++ (stepped.map Prod.snd).flatten)

/-- The success branch of `_process_group`: walk the marked items, and
give each included one (in order) the next returned message id,
`is_uploaded = True` and a success outcome. -/
def assign_success (now : Nat) : List Nat → List (Item × Bool) → List Item
  | _, [] => []
  | ids, (it, false) :: rest => it :: assign_success now ids rest
  | [], (it, true) :: rest => it :: assign_success now [] rest
  | mid :: ids, (it, true) :: rest =>
      { it with is_uploaded := true,
                upload_info := some (build_success_info mid now) }
        :: assign_success now ids rest

/-- The `ValueError` message raised on a response-count mismatch:
`f"返回消息数量{got}与媒体组数量{expected}不匹配！"`. -/
def value_error_msg (got expected : Nat) : List Char :=
  "返回消息数量".toList ++ (Nat.repr got).toList ++ "与媒体组数量".toList
    ++ (Nat.repr expected).toList ++ "不匹配！".toList

/-- The preparation step of `_process_group` (caption built from the
group's first item, then `_prepare_media_group` over the whole list). -/
def group_prepared (now : Nat) (items : List Item) : PrepOut :=
  match items with
  | [] => { marked := [], media := [], alerts := [] }
  | it0 :: _ => prepare_media_group now (build_caption it0) 0 items

/-- The `UploadManager._process_group`.  `pub` is the Publisher's response to
the one `send_media_group` call: the ordered message-id list or the
raised exception (class name, `str(error)`).  An empty prepared media
group publishes nothing; a count mismatch raises `ValueError` inside the
`try`, so both publisher failure and mismatch flow into the `except`
branch, which stores an individual failure outcome on every
not-yet-uploaded item of the group; nothing propagates to the caller. -/
def process_group (now : Nat) (pub : Except (String × List Char) (List Nat))
    (items : List Item) : List Item × List Alert :=
  let p := group_prepared now items
  if p.media.isEmpty then (p.marked.map Prod.fst, p.alerts)
  else
    match pub with
    | Except.error pe => group_failure (UError.apiError pe.1 pe.2) now p
    | Except.ok ids =>
        if ids.length = p.media.length then
          (assign_success now ids p.marked, p.alerts)
        else
          group_failure
            (UError.apiError ("ValueError") (value_error_msg ids.length p.media.length))
            now p

/-- The result of one Publisher single-message call
(`send_message` / `send_photo` / `send_video`): a message id or the
raised exception (class name, `str(error)`). -/
abbrev SendRes : Type := Except (String × List Char) Nat

/-- A default response used when the oracle stream is exhausted (never
reached in the statements below, which supply enough responses). -/
def send_res_default : SendRes :=
  Except.error (("RuntimeError"), ("no response".toList))

/-- The sending part of `_process_single_item`:
`_send_text_message` for special kinds (consumes one Publisher
response), `_send_media_file` for media kinds (size check first —
a missing file or `FileTooLargeError` raises before any send, consuming
nothing).  Returns the outcome together with the remaining response
stream. -/
def try_send_single (it : Item) (ss : List SendRes) :
    Except UError Nat × List SendRes :=
  if is_special_type it.media_type then
    match ss.headD send_res_default with
    | Except.ok mid => (Except.ok mid, ss.tail)
    | Except.error pe => (Except.error (UError.apiError pe.1 pe.2), ss.tail)
  else
    match it.disk_size with
    | none =>
        (Except.error (UError.apiError ("FileNotFoundError") ("file not found".toList)), ss)
    | some sz =>
        if telegram_size_limit it.media_type < sz then
          (Except.error (UError.fileTooLarge
            (file_too_large_message it.media_type sz (telegram_size_limit it.media_type))), ss)
        else
          match ss.headD send_res_default with
          | Except.ok mid => (Except.ok mid, ss.tail)
          | Except.error pe => (Except.error (UError.apiError pe.1 pe.2), ss.tail)

/-- The `UploadManager._process_single_item`: gate through `_should_upload`
(which may itself fire the unrecoverable-condition alert and mutate the
flag), then send; success records `is_uploaded` and the success outcome,
any exception goes to `_handle_upload_error`. -/
def process_single_item (now : Nat) (ss : List SendRes) (it : Item) :
    Item × List SendRes × List Alert :=
  let s := should_upload it
  if s.1 then
    let t := try_send_single s.2.1 ss
    match t.1 with
    | Except.ok mid =>
        ({ s.2.1 with is_uploaded := true,
                      upload_info := some (build_success_info mid now) },
         t.2, s.2.2)
    | Except.error e =>
        let h := handle_upload_error e now s.2.1
        (h.1, t.2, s.2.2 ++ h.2)
  else (s.2.1, ss, s.2.2)

/-- The text-item pass of `process_items`: every pending special-kind
item is pushed through `_process_single_item`, in order, threading the
Publisher response stream; all other items are untouched. -/
def process_text_items (now : Nat) :
    List SendRes → List Item → List Item × List SendRes × List Alert
  | ss, [] => ([], ss, [])
  | ss, it :: rest =>
    if ¬ it.is_uploaded ∧ is_special_type it.media_type then
      let s := process_single_item now ss it
      let r := process_text_items now s.2.1 rest
      (s.1 :: r.1, r.2.1, s.2.2 ++ r.2.2)
    else
      let r := process_text_items now ss rest
      (it :: r.1, r.2.1, r.2.2)

/-- Re-injects the processed media sublist into the full item list:
positions satisfying `p` receive the successive elements of `subs`
(the pure counterpart of Python's in-place mutation through the
`media_items` alias list). -/
def replace_where (p : Item → Bool) : List Item → List Item → List Item
  | [], _ => []
  | it :: rest, subs =>
    if p it then subs.headD it :: replace_where p rest subs.tail
    else it :: replace_where p rest subs

/-- The predicate selecting the group's media candidates:
`media_type in ['images','videos'] and not is_uploaded`. -/
def pending_media (it : Item) : Bool :=
  is_media_kind it.media_type && ! it.is_uploaded

/-- The `UploadManager.process_items`: skip when nothing is pending, push
pending special items through the single path, then publish the pending
media either through the single-file strategy (exactly one) or the
media-group strategy.  Returns the updated group, the remaining
single-send response stream, and the alerts. -/
def process_items (now : Nat) (ss : List SendRes)
    (pub : Except (String × List Char) (List Nat)) (items : List Item) :
    List Item × List SendRes × List Alert :=
  if items.all (fun it => it.is_uploaded) then (items, ss, [])
  else
    let t := process_text_items now ss items
    let media := t.1.filter pending_media
    match media with
    | [] => (t.1, t.2.1, t.2.2)
    | [m] =>
        let s := process_single_item now t.2.1 m
        (replace_where pending_media t.1 [s.1], s.2.1, t.2.2 ++ s.2.2)
    | _ :: _ :: _ =>
        let g := process_group now pub media
        (replace_where pending_media t.1 g.1, t.2.1, t.2.2 ++ g.2)

/-!
## Grouping (`process_single`, lines 667–674)

`defaultdict(list)` keyed by `tweet_id`, iterated in insertion order;
items whose record lacks the `tweet_id` key are logged and skipped.
-/

/-- Appending one item under its key into the ordered association list
that models the insertion-ordered `defaultdict(list)`. -/
def add_to_groups : List (Nat × List Item) → Nat → Item → List (Nat × List Item)
  | [], tid, it => [(tid, [it])]
  | (k, l) :: rest, tid, it =>
      if k = tid then (k, l ++ [it]) :: rest
      else (k, l) :: add_to_groups rest tid it

/-- The grouping loop of `process_single`: items without a `tweet_id`
are skipped (`continue`), the rest are appended to their key's group. -/
def group_by_post (items : List Item) : List (Nat × List Item) :=
  items.foldl
    (fun gs it =>
      match it.tweet_id with
      | none => gs
      | some tid => add_to_groups gs tid it)
    []

/-- First-seen order of a key list (each key once, at its first
occurrence). -/
def first_seen : List Nat → List Nat
  | [] => []
  | t :: rest => t :: first_seen (rest.filter (fun x => x ≠ t))
termination_by l => l.length
decreasing_by
  simp only [List.length_cons]
  exact Nat.lt_succ_of_le (List.length_filter_le _ _)

/-- Modelled from the spec: "`group_by_post(items)`: stable partition
keyed by post identifier, preserving first-seen group order and original
item order within each group" — each first-seen key paired with the
subsequence of items carrying it.  Used as the reference the code's
grouping is compared against. -/
def group_by_post_spec (items : List Item) : List (Nat × List Item) :=
  (first_seen (items.filterMap (fun it => it.tweet_id))).map
    (fun t => (t, items.filter (fun it => it.tweet_id = some t)))

/-!
## Run level (`process_single`)
-/

/-- The environment variables read via `Config.get_env_vars`. -/
structure Env : Type where
  bot_token : Option String
  chat_id : Option String
  lark_key : Option String
deriving DecidableEq, Repr

/-- How a `process_single` run can terminate abnormally: a load failure
re-raised to the caller, a save failure re-raised to the caller, or the
`sys.exit(1)` (`SystemExit`) of `UploadManager.__init__` when the
required configuration is missing. -/
inductive RunError : Type
  | loadFailed
  | saveFailed
  | configExit (code : Nat)
deriving DecidableEq, Repr

/-- The per-group download loop of `process_single` (step 2.1): every
not-yet-downloaded item goes through `DownloadManager.process_item`,
consuming one Fetcher response per fetch actually performed. -/
def download_phase (now : Nat) :
    List FetchRes → List Item → List Item × List FetchRes
  | fs, [] => ([], fs)
  | fs, it :: rest =>
    if ¬ it.is_downloaded then
      let d := download_process_item now (fs.headD (FetchRes.err [])) it
      let fs1 := if d.2 then fs.tail else fs
      let r := download_phase now fs1 rest
      (d.1 :: r.1, r.2)
    else
      let r := download_phase now fs rest
      (it :: r.1, r.2)

/-- The per-group loop of `process_single` (step 2): download the group,
then run the upload strategy on it; one Publisher media-group response
is set aside per group, and the Fetcher / single-send streams thread
through. -/
def run_groups (now : Nat) :
    List FetchRes → List SendRes → List (Except (String × List Char) (List Nat)) →
    List (Nat × List Item) → List (Nat × List Item) × List Alert
  | _, _, _, [] => ([], [])
  | fs, ss, pubs, (tid, its) :: rest =>
    let d := download_phase now fs its
    let u := process_items now ss (pubs.headD (Except.error (("RuntimeError"), []))) d.1
    let r := run_groups now d.2 u.2.1 pubs.tail rest
    ((tid, u.1) :: r.1, u.2.2 ++ r.2)

/-- The `process_single`: load, group, construct the managers
(`UploadManager.__init__` exits with status 1 when `BOT_TOKEN` or
`CHAT_ID` is missing — a `SystemExit` that no `except Exception` in the
source catches), run the groups, save.  Only the load/save outcome and
the configuration check decide abnormal termination; the per-group work
is total. -/
def process_single_run (env : Env) (loadRes : Except Unit (List Item))
    (saveOk : Bool) (now : Nat) (fs : List FetchRes) (ss : List SendRes)
    (pubs : List (Except (String × List Char) (List Nat))) :
    Except RunError (List (Nat × List Item) × List Alert) :=
  match loadRes with
  | Except.error _ => Except.error RunError.loadFailed
  | Except.ok data =>
      let groups := group_by_post data
      if env.bot_token.isNone || env.chat_id.isNone then
        Except.error (RunError.configExit 1)
      else
        let r := run_groups now fs ss pubs groups
        if saveOk then Except.ok r else Except.error RunError.saveFailed

/-!
## Item lifetimes

For the temporal claims the item's lifetime is a sequence of the events
the source can apply to one item: a download-processing step, an
upload-failure recording, an `_has_unrecoverable_error` re-evaluation,
or a successful publish.  `life_run` also counts how many events
actually performed a network fetch.
-/

/-- One event of an item's lifetime across arbitrarily many runs. -/
inductive LifeEvent : Type
  | download (fr : FetchRes) (now : Nat)
  | uploadFail (e : UError) (now : Nat)
  | uploadCheck
  | uploadSuccess (mid : Nat) (now : Nat)
deriving Repr

/-- Apply one lifetime event; the `Nat` is 1 when a fetch was performed. -/
def life_step (it : Item) : LifeEvent → Item × Nat
  | LifeEvent.download fr now =>
      let d := download_process_item now fr it
      (d.1, if d.2 then 1 else 0)
  | LifeEvent.uploadFail e now => ((handle_upload_error e now it).1, 0)
  | LifeEvent.uploadCheck => ((has_unrecoverable_error it).2.1, 0)
  | LifeEvent.uploadSuccess mid now =>
      ({ it with is_uploaded := true,
                 upload_info := some (build_success_info mid now) }, 0)

/-- Run a lifetime: final item and total number of fetches performed. -/
def life_run : Item → List LifeEvent → Item × Nat
  | it, [] => (it, 0)
  | it, e :: es =>
      let s := life_step it e
      let r := life_run s.1 es
      (r.1, s.2 + r.2)

/-- Runs `n` consecutive re-evaluations of `_has_unrecoverable_error` on one
item (no other event in between), collecting the alerts they fire. -/
def iterate_check : Item → Nat → Item × List Alert
  | it, 0 => (it, [])
  | it, n + 1 =>
      let r := has_unrecoverable_error it
      let s := iterate_check r.2.1 n
      (s.1, r.2.2 ++ s.2)

/-!
## Helper lemmas
-/

/-- The item state `_handle_upload_error` leaves behind (its first
component): failure outcome stored, `is_downloaded` reset. -/
def overwrite_fail (e : UError) (now : Nat) (it : Item) : Item :=
  { it with upload_info := some (build_error_info e now), is_downloaded := false }

theorem handle_upload_error_fst (e : UError) (now : Nat) (it : Item) :
    (handle_upload_error e now it).1 = overwrite_fail e now it := rfl

theorem overwrite_fail_overwrite_fail (e e' : UError) (n n' : Nat) (it : Item) :
    overwrite_fail e n (overwrite_fail e' n' it) = overwrite_fail e n it := rfl

theorem overwrite_fail_is_uploaded (e : UError) (n : Nat) (it : Item) :
    (overwrite_fail e n it).is_uploaded = it.is_uploaded := rfl

theorem has_unrecoverable_error_is_uploaded (it : Item) :
    ((has_unrecoverable_error it).2.1).is_uploaded = it.is_uploaded := by
  simp only [has_unrecoverable_error]
  split
  · split
    · split <;> rfl
    · rfl
  · rfl

theorem has_unrecoverable_error_overwrite (e : UError) (n : Nat) (it : Item) :
    overwrite_fail e n ((has_unrecoverable_error it).2.1) = overwrite_fail e n it := by
  simp only [has_unrecoverable_error]
  split
  · split
    · split <;> rfl
    · rfl
  · rfl

/-- When the stored `error_type` is not a terminal one,
`_has_unrecoverable_error` reports false and changes nothing. -/
theorem has_unrecoverable_error_not_terminal (it : Item)
    (h1 : upload_error_type it ≠ some UploadErrorType.file_too_large)
    (h2 : upload_error_type it ≠ some UploadErrorType.max_download_attempts) :
    has_unrecoverable_error it = (false, it, []) := by
  unfold upload_error_type at h1 h2
  simp only [has_unrecoverable_error]
  rcases hET : (it.upload_info.getD emptyUploadInfo).error_type with _ | et
  · simp [hET]
  · rw [hET] at h1 h2
    rcases et with _ | _ | _
    · exact absurd rfl h1
    · exact absurd rfl h2
    · simp [hET]

/-- Whatever per-item mutations `_prepare_media_group` performed, a later
blanket `_handle_upload_error` overwrite erases them: mapping the
overwrite over the prepared (marked) items equals mapping it over the
original items. -/
theorem prepare_marked_fail_map (now : Nat) (cap : List Char) (e : UError) (n2 : Nat) :
    ∀ (items : List Item) (cnt : Nat),
      ((prepare_media_group now cap cnt items).marked).map
          (fun q => if q.1.is_uploaded then q.1 else overwrite_fail e n2 q.1)
        = items.map (fun it => if it.is_uploaded then it else overwrite_fail e n2 it) := by
  intro items
  induction items with
  | nil => intro cnt; rfl
  | cons it rest ih =>
    intro cnt
    simp only [prepare_media_group]
    split
    · simp [List.map_map, Function.comp]
    · by_cases hup : it.is_uploaded
      · simp [hup, ih]
      · simp only [hup, if_false, Bool.false_eq_true]
        split
        · simp only [List.map_cons, ih]
          rw [has_unrecoverable_error_is_uploaded]
          simp [hup, has_unrecoverable_error_overwrite]
        · split
          · simp only [List.map_cons, ih]
            rw [has_unrecoverable_error_is_uploaded]
            simp [hup, has_unrecoverable_error_overwrite]
          · split
            · simp only [List.map_cons, ih, handle_upload_error_fst]
              rw [overwrite_fail_is_uploaded, has_unrecoverable_error_is_uploaded]
              simp [hup, overwrite_fail_overwrite_fail, has_unrecoverable_error_overwrite]
            · simp only [List.map_cons, ih]
              rw [has_unrecoverable_error_is_uploaded]
              simp [hup, has_unrecoverable_error_overwrite]

theorem group_failure_fst (e : UError) (now : Nat) (p : PrepOut) :
    (group_failure e now p).1
      = p.marked.map (fun q => if q.1.is_uploaded then q.1 else overwrite_fail e now q.1) := by
  simp [group_failure, List.map_map, Function.comp_def, apply_ite Prod.fst,
    handle_upload_error_fst]

/-- Closed form of `_process_group` when the publisher raises: every
not-yet-uploaded item of the whole group ends with the failure outcome
(classified `api_error`, `notification_sent = False`) and a reset
`is_downloaded`; uploaded items are untouched. -/
theorem process_group_error_closed (now : Nat) (c : String) (m : List Char)
    (items : List Item) (h : (group_prepared now items).media ≠ []) :
    (process_group now (Except.error (c, m)) items).1
      = items.map (fun it => if it.is_uploaded then it
          else overwrite_fail (UError.apiError c m) now it) := by
  simp only [process_group]
  rw [if_neg (by simp [List.isEmpty_iff, h])]
  rw [group_failure_fst]
  cases items with
  | nil => exact absurd rfl h
  | cons it0 rest =>
      simp only [group_prepared]
      exact prepare_marked_fail_map now (build_caption it0) (UError.apiError c m) now
        (it0 :: rest) 0

/-- Closed form of `_process_group` on a response-count mismatch: the
`ValueError` flows into the same `except` branch, so every
not-yet-uploaded item of the group ends with the failure outcome. -/
theorem process_group_mismatch_closed (now : Nat) (ids : List Nat)
    (items : List Item) (hm : (group_prepared now items).media ≠ [])
    (hlen : ids.length ≠ (group_prepared now items).media.length) :
    (process_group now (Except.ok ids) items).1
      = items.map (fun it => if it.is_uploaded then it
          else overwrite_fail
            (UError.apiError ("ValueError")
              (value_error_msg ids.length (group_prepared now items).media.length))
            now it) := by
  simp only [process_group]
  rw [if_neg (by simp [List.isEmpty_iff, hm])]
  rw [if_neg hlen]
  rw [group_failure_fst]
  cases items with
  | nil => exact absurd rfl hm
  | cons it0 rest =>
      simp only [group_prepared]
      exact prepare_marked_fail_map now (build_caption it0) _ now (it0 :: rest) 0

theorem media_kind_not_special (m : MediaType) (h : is_media_kind m = true) :
    is_special_type m = false := by
  cases m <;> simp_all [is_media_kind, is_special_type]

theorem attempts_of_handle_max_attempts (now : Nat) (it : Item) :
    attempts_of (handle_max_attempts now it) = attempts_of it := by
  unfold handle_max_attempts
  cases it.upload_info <;> rfl

theorem media_type_handle_max_attempts (now : Nat) (it : Item) :
    (handle_max_attempts now it).media_type = it.media_type := by
  unfold handle_max_attempts
  cases it.upload_info <;> rfl

theorem attempts_of_has_unrecoverable_error (it : Item) :
    attempts_of ((has_unrecoverable_error it).2.1) = attempts_of it := by
  simp only [has_unrecoverable_error]
  split
  · split
    · split <;> rfl
    · rfl
  · rfl

theorem media_type_has_unrecoverable_error (it : Item) :
    ((has_unrecoverable_error it).2.1).media_type = it.media_type := by
  simp only [has_unrecoverable_error]
  split
  · split
    · split <;> rfl
    · rfl
  · rfl

/-- Once a (media-kind) item's attempt counter has reached the ceiling,
no lifetime event performs a fetch, and the exhausted state persists. -/
theorem life_step_no_fetch (it : Item) (ev : LifeEvent)
    (hm : is_media_kind it.media_type = true)
    (ha : MAX_DOWNLOAD_ATTEMPTS ≤ attempts_of it) :
    (life_step it ev).2 = 0
      ∧ is_media_kind ((life_step it ev).1).media_type = true
      ∧ MAX_DOWNLOAD_ATTEMPTS ≤ attempts_of (life_step it ev).1 := by
  cases ev with
  | download fr now =>
      simp only [life_step, download_process_item, media_kind_not_special _ hm,
        Bool.false_eq_true, if_false]
      by_cases hd : it.is_downloaded
      · simp [hd, hm, ha]
      · simp [hd, ha, attempts_of_handle_max_attempts,
          media_type_handle_max_attempts, hm]
  | uploadFail e now => exact ⟨rfl, hm, ha⟩
  | uploadCheck =>
      refine ⟨rfl, ?_, ?_⟩
      · rw [life_step, media_type_has_unrecoverable_error]; exact hm
      · rw [life_step, attempts_of_has_unrecoverable_error]; exact ha
  | uploadSuccess mid now => exact ⟨rfl, hm, ha⟩

/-- Once the ceiling is reached, `life_run` never fetches. -/
theorem life_run_no_fetch (tr : List LifeEvent) :
    ∀ (it : Item), is_media_kind it.media_type = true →
      MAX_DOWNLOAD_ATTEMPTS ≤ attempts_of it → (life_run it tr).2 = 0 := by
  induction tr with
  | nil => intro it _ _; rfl
  | cons ev es ih =>
      intro it hm ha
      obtain ⟨h0, h1, h2⟩ := life_step_no_fetch it ev hm ha
      simp [life_run, h0, ih _ h1 h2]

/-- The item carries a terminal condition in its upload outcome slot. -/
def terminal_condition (it : Item) : Bool :=
  upload_error_type it = some UploadErrorType.file_too_large
    ∨ upload_error_type it = some UploadErrorType.max_download_attempts

/-- If the flag is already set, or there is no terminal condition,
`_has_unrecoverable_error` changes nothing and alerts nothing. -/
theorem has_unrecoverable_error_noop (it : Item)
    (h : notif_flag it = true ∨ terminal_condition it = false) :
    (has_unrecoverable_error it).2 = (it, []) := by
  unfold notif_flag terminal_condition upload_error_type at h
  simp only [has_unrecoverable_error]
  rcases hET : (it.upload_info.getD emptyUploadInfo).error_type with _ | et
  · simp [hET]
  · rw [hET] at h
    by_cases hterm : et = UploadErrorType.file_too_large
        ∨ et = UploadErrorType.max_download_attempts
    · rcases h with h | h
      · simp [hterm, h]
      · rcases hterm with h' | h' <;> simp [h'] at h
    · simp [hterm]

/-- Re-evaluations of a stable item do nothing, however many there are. -/
theorem iterate_check_stable (it : Item)
    (h : notif_flag it = true ∨ terminal_condition it = false) :
    ∀ n, iterate_check it n = (it, []) := by
  intro n
  induction n with
  | zero => rfl
  | succ n ih =>
      simp [iterate_check, has_unrecoverable_error_noop it h, ih]

/-- Each `_has_unrecoverable_error` evaluation either changes nothing
(with the stability reason) or fires exactly one alert and leaves the
flag set. -/
theorem has_unrecoverable_error_cases (it : Item) :
    ((has_unrecoverable_error it).2 = (it, [])
        ∧ (notif_flag it = true ∨ terminal_condition it = false))
    ∨ ((has_unrecoverable_error it).2.2.length = 1
        ∧ notif_flag ((has_unrecoverable_error it).2.1) = true) := by
  obtain ⟨fn, tid, mt, url, sn, un, pt, ft, dl, di, up, uo, dsk⟩ := it
  cases uo with
  | none =>
      left
      simp [has_unrecoverable_error, terminal_condition, upload_error_type,
        emptyUploadInfo]
  | some ui =>
      obtain ⟨s, et, msg, ts, ns, mid⟩ := ui
      cases et with
      | none =>
          left
          simp [has_unrecoverable_error, terminal_condition, upload_error_type]
      | some e =>
          cases e with
          | file_too_large =>
              by_cases hns : ns.getD false = false
              · right
                simp [has_unrecoverable_error, notif_flag, hns]
              · left
                simp only [Bool.not_eq_false] at hns
                simp [has_unrecoverable_error, notif_flag, hns]
          | max_download_attempts =>
              by_cases hns : ns.getD false = false
              · right
                simp [has_unrecoverable_error, notif_flag, hns]
              · left
                simp only [Bool.not_eq_false] at hns
                simp [has_unrecoverable_error, notif_flag, hns]
          | api_error =>
              left
              simp [has_unrecoverable_error, terminal_condition, upload_error_type]

theorem mem_first_seen : ∀ (l : List Nat), ∀ x ∈ first_seen l, x ∈ l := by
  intro l
  induction l using first_seen.induct with
  | case1 => intro x hx; rw [first_seen] at hx; exact absurd hx (List.not_mem_nil x)
  | case2 t rest ih =>
      intro x hx
      rw [first_seen] at hx
      rcases List.mem_cons.mp hx with h | h
      · exact h ▸ List.mem_cons_self t rest
      · exact List.mem_cons_of_mem t (List.mem_of_mem_filter (ih x h))

theorem add_to_groups_not_mem (tid : Nat) (it : Item) :
    ∀ (gs : List (Nat × List Item)), tid ∉ gs.map Prod.fst →
      add_to_groups gs tid it = gs ++ [(tid, [it])] := by
  intro gs
  induction gs with
  | nil => intro _; rfl
  | cons kl rest ih =>
      obtain ⟨k, l⟩ := kl
      intro h
      simp only [List.map_cons, List.mem_cons] at h
      push_neg at h
      simp only [add_to_groups]
      rw [if_neg (fun hk => h.1 hk.symm)]
      rw [ih h.2]
      rfl

theorem add_to_groups_mem (tid : Nat) (it : Item) :
    ∀ (gs : List (Nat × List Item)), (gs.map Prod.fst).Nodup →
      tid ∈ gs.map Prod.fst →
      add_to_groups gs tid it
        = gs.map (fun kl => if kl.1 = tid then (kl.1, kl.2 ++ [it]) else kl) := by
  intro gs
  induction gs with
  | nil => intro _ h; exact absurd h (List.not_mem_nil tid)
  | cons kl rest ih =>
      obtain ⟨k, l⟩ := kl
      intro hnd hmem
      simp only [List.map_cons, List.nodup_cons] at hnd
      by_cases hk : k = tid
      · subst hk
        have hrest : ∀ q ∈ rest, (if (q : Nat × List Item).1 = k then (q.1, q.2 ++ [it]) else q) = q := by
          intro q hq
          rw [if_neg]
          intro hq1
          exact hnd.1 (hq1 ▸ List.mem_map_of_mem Prod.fst hq)
        simp only [add_to_groups, List.map_cons, if_pos rfl]
        rw [List.map_congr_left hrest]
        simp
      · simp only [List.map_cons, List.mem_cons] at hmem
        rcases hmem with h | h
        · exact absurd h.symm hk
        · simp only [add_to_groups, if_neg hk, List.map_cons, if_neg hk]
          rw [ih hnd.2 h]

/-- The grouping fold, generalized over an accumulator with distinct
keys: existing groups get their matching items appended, new first-seen
keys get fresh groups at the end, and key-less items vanish. -/
theorem foldl_group_spec :
    ∀ (items : List Item) (gs : List (Nat × List Item)),
      (gs.map Prod.fst).Nodup →
      items.foldl
          (fun gs it =>
            match it.tweet_id with
            | none => gs
            | some tid => add_to_groups gs tid it)
          gs
        = gs.map (fun kl => (kl.1, kl.2 ++ items.filter (fun x => x.tweet_id = some kl.1)))
          ++ (first_seen ((items.filterMap (fun x => x.tweet_id)).filter
                (fun t => decide (t ∉ gs.map Prod.fst)))).map
              (fun t => (t, items.filter (fun x => x.tweet_id = some t))) := by
  intro items
  induction items with
  | nil =>
      intro gs _
      simp [first_seen]
  | cons it rest ih =>
      intro gs hnd
      rw [List.foldl_cons]
      rcases hid : it.tweet_id with _ | t
      · simp only [hid]
        rw [ih gs hnd]
        simp [hid, List.filter_cons, List.filterMap_cons]
      · simp only [hid]
        by_cases hmem : t ∈ gs.map Prod.fst
        · rw [add_to_groups_mem t it gs hnd hmem]
          have hkeys : (gs.map (fun kl => if kl.1 = t then (kl.1, kl.2 ++ [it]) else kl)).map
              Prod.fst = gs.map Prod.fst := by
            rw [List.map_map]
            apply List.map_congr_left
            intro q _
            by_cases h : q.1 = t <;> simp [h]
          have hnd' : ((gs.map (fun kl => if kl.1 = t then (kl.1, kl.2 ++ [it]) else kl)).map
              Prod.fst).Nodup := by
            rw [hkeys]; exact hnd
          rw [ih _ hnd']
          congr 1
          · rw [List.map_map]
            apply List.map_congr_left
            intro q hq
            by_cases h : q.1 = t
            · simp only [Function.comp_apply, if_pos h, List.filter_cons, h, hid]
              simp [List.append_assoc]
            · simp only [Function.comp_apply, if_neg h, List.filter_cons, hid]
              have hne : ¬ t = q.1 := fun hc => h hc.symm
              simp [hne]
          · rw [hkeys]
            have hfm : (it :: rest).filterMap (fun x => x.tweet_id)
                = t :: rest.filterMap (fun x => x.tweet_id) := by
              simp [List.filterMap_cons, hid]
            rw [hfm]
            have hdrop : (t :: rest.filterMap (fun x => x.tweet_id)).filter
                  (fun t' => decide (t' ∉ gs.map Prod.fst))
                = (rest.filterMap (fun x => x.tweet_id)).filter
                  (fun t' => decide (t' ∉ gs.map Prod.fst)) := by
              rw [List.filter_cons]
              simp [hmem]
            rw [hdrop]
            apply List.map_congr_left
            intro t' ht'
            have ht'mem := mem_first_seen _ t' ht'
            have ht'notin : t' ∉ gs.map Prod.fst := by
              have := List.of_mem_filter ht'mem
              simpa using this
            have htne : ¬ t = t' := fun hc => ht'notin (hc ▸ hmem)
            simp only [List.filter_cons, hid]
            simp [htne]
        · rw [add_to_groups_not_mem t it gs hmem]
          have hkeys : ((gs ++ [(t, [it])]).map Prod.fst) = gs.map Prod.fst ++ [t] := by
            simp
          have hnd' : (((gs ++ [(t, [it])]).map Prod.fst)).Nodup := by
            rw [hkeys]
            simp [List.nodup_append, hnd, hmem]
          rw [ih _ hnd']
          rw [List.map_append, hkeys]
          have hfm : (it :: rest).filterMap (fun x => x.tweet_id)
              = t :: rest.filterMap (fun x => x.tweet_id) := by
            simp [List.filterMap_cons, hid]
          rw [hfm]
          have hkeep : (t :: rest.filterMap (fun x => x.tweet_id)).filter
                (fun t' => decide (t' ∉ gs.map Prod.fst))
              = t :: (rest.filterMap (fun x => x.tweet_id)).filter
                (fun t' => decide (t' ∉ gs.map Prod.fst)) := by
            rw [List.filter_cons]
            simp [hmem]
          rw [hkeep, first_seen]
          rw [List.append_assoc]
          congr 1
          · apply List.map_congr_left
            intro q hq
            have hqmem : q.1 ∈ gs.map Prod.fst := List.mem_map_of_mem Prod.fst hq
            have hqne : ¬ t = q.1 := fun hc => hmem (hc ▸ hqmem)
            simp only [List.filter_cons, hid]
            simp [hqne]
          · rw [List.map_cons]
            have hfeq : ((rest.filterMap (fun x => x.tweet_id)).filter
                    (fun t' => decide (t' ∉ gs.map Prod.fst))).filter
                    (fun x => x ≠ t)
                  = (rest.filterMap (fun x => x.tweet_id)).filter
                    (fun t' => decide (t' ∉ gs.map Prod.fst ++ [t])) := by
              rw [List.filter_filter]
              apply List.filter_congr
              intro a _
              by_cases h1 : a = t <;> by_cases h2 : a ∈ gs.map Prod.fst <;>
                simp [h1, h2, List.mem_append]
            rw [hfeq]
            simp only [List.map_nil, List.nil_append, List.map_cons, List.cons_append]
            congr 1
            · simp [List.filter_cons, hid]
            apply List.map_congr_left
            intro t' ht'
            have ht'mem := mem_first_seen _ t' ht'
            have ht'ne : ¬ t = t' := by
              have := List.of_mem_filter ht'mem
              simp [List.mem_append] at this
              exact fun hc => this.2 hc.symm
            simp only [List.filter_cons, hid]
            simp [ht'ne]

/-- The code's grouping, in closed form: one group per first-seen
`tweet_id`, holding exactly the subsequence of items carrying that id;
items lacking a `tweet_id` appear nowhere. -/
theorem group_by_post_eq_spec (items : List Item) :
    group_by_post items = group_by_post_spec items := by
  unfold group_by_post group_by_post_spec
  rw [foldl_group_spec items [] (by simp)]
  simp

/-- When no pending special-kind item exists, the text pass is a no-op
and consumes no Publisher response. -/
theorem process_text_items_noop (now : Nat) (ss : List SendRes) :
    ∀ (items : List Item),
      (∀ it ∈ items, it.is_uploaded = true ∨ is_special_type it.media_type = false) →
      process_text_items now ss items = (items, ss, []) := by
  intro items
  induction items with
  | nil => intro _; rfl
  | cons it rest ih =>
      intro h
      have hit := h it (List.mem_cons_self it rest)
      have hcond : ¬ (¬ it.is_uploaded = true ∧ is_special_type it.media_type = true) := by
        rcases hit with h1 | h1 <;> simp [h1]
      simp only [process_text_items, if_neg hcond]
      rw [ih (fun x hx => h x (List.mem_cons_of_mem it hx))]

theorem attempts_of_handle_download_failure (now : Nat) (msg : List Char) (it : Item) :
    attempts_of (handle_download_failure now msg it) = attempts_of it + 1 := rfl

theorem upload_error_type_handle_max_attempts (now : Nat) (it : Item) :
    upload_error_type (handle_max_attempts now it)
      = some UploadErrorType.max_download_attempts := by
  unfold handle_max_attempts upload_error_type
  cases it.upload_info <;> rfl

/-!
## Concrete items used by the closed statements below
-/

/-- A plain downloaded, not-yet-uploaded image item. -/
def test_item : Item :=
  { file_name := "f", tweet_id := some 1, media_type := MediaType.images,
    url := "u", screen_name := "s".toList, user_name := "n".toList,
    publish_time_fmt := "t".toList, full_text := "x".toList,
    is_downloaded := true, download_info := none, is_uploaded := false,
    upload_info := none, disk_size := some 100 }

/-!
## Claim C7 — `record_upload_failure`
-/

/-- An upload error whose `str(error)` is 300 characters long — longer
than `ERROR_TRUNCATE` (50) and `NOTIFICATION_TRUNCATE` (200). -/
def c7_long_error : UError :=
  UError.apiError ("HTTPError") (List.replicate 300 ('e'))

set_option maxRecDepth 4096 in
/-- C7 counterexample: the stored upload outcome keeps the *full*
`str(error)` — here all 300 characters, longer than every truncation
length the program uses — so the claim's "truncated message" is false
(truncation happens only in the log/alert text, per §7 of the spec). -/
theorem c7_counterexample :
    (handle_upload_error c7_long_error 5 test_item).1.upload_info
        = some (build_error_info c7_long_error 5)
      ∧ (build_error_info c7_long_error 5).message = some (List.replicate 300 ('e'))
      ∧ ERROR_TRUNCATE < (List.replicate 300 ('e') : List Char).length
      ∧ NOTIFICATION_TRUNCATE < (List.replicate 300 ('e') : List Char).length := by
  refine ⟨rfl, rfl, ?_, ?_⟩
  · simp [ERROR_TRUNCATE]
  · simp [NOTIFICATION_TRUNCATE]


/-- C7 (amended): for every item and every upload error,
`_handle_upload_error` stores
`Failure{error_type from the classifier, full untruncated message,
timestamp, notification_sent = false}` on the upload outcome and resets
`is_downloaded` — for every error type, including file-too-large. -/
theorem c7_record_upload_failure (e : UError) (now : Nat) (it : Item) :
    (handle_upload_error e now it).1.upload_info = some (build_error_info e now)
      ∧ (build_error_info e now).success = some false
      ∧ (build_error_info e now).error_type = some (classify_error e)
      ∧ (build_error_info e now).message = some (uerror_msg e)
      ∧ (build_error_info e now).timestamp = some now
      ∧ (build_error_info e now).notification_sent = some false
      ∧ (handle_upload_error e now it).1.is_downloaded = false :=
  ⟨rfl, rfl, rfl, rfl, rfl, rfl, rfl⟩

/-!
## Claim C8 — missing configuration is fatal
-/

/-- C8: when `BOT_TOKEN` or `CHAT_ID` is missing, the run halts through
`sys.exit(1)` (a non-zero status) straight after load/grouping, before
any download or upload: the result is the config-exit error regardless
of every oracle, so no item is ever processed and nothing is saved. -/
theorem c8_missing_config_halts (env : Env) (data : List Item) (saveOk : Bool)
    (now : Nat) (fs : List FetchRes) (ss : List SendRes)
    (pubs : List (Except (String × List Char) (List Nat)))
    (h : env.bot_token = none ∨ env.chat_id = none) :
    process_single_run env (Except.ok data) saveOk now fs ss pubs
        = Except.error (RunError.configExit 1)
      ∧ (1 : Nat) ≠ 0 := by
  refine ⟨?_, one_ne_zero⟩
  simp only [process_single_run]
  rcases h with h | h <;> simp [h]

theorem c8_witness :
    process_single_run
        { bot_token := none, chat_id := some ("c"), lark_key := none }
        (Except.ok [test_item]) true 0 [] [] []
      = Except.error (RunError.configExit 1) :=
  (c8_missing_config_halts _ [test_item] true 0 [] [] [] (Or.inl rfl)).1

/-!
## Claim C5 — download exhaustion scenario
-/

/-- C5: an undownloaded media item with `attempts = 9` whose fetch fails
again: that run performs the fetch, leaves `attempts = 10` and does not
touch the upload outcome slot (not yet terminal); the next download
processing performs no fetch and writes the download-exhaustion
condition into the upload outcome slot; and from the `attempts = 10`
state on, no lifetime whatsoever (downloads, upload failures,
re-evaluations, publishes) ever performs a fetch again. -/
theorem c5_attempts_ceiling (it : Item) (now1 : Nat) (msg : List Char)
    (hkind : is_media_kind it.media_type = true)
    (hdl : it.is_downloaded = false)
    (hatt : attempts_of it = 9) :
    (download_process_item now1 (FetchRes.err msg) it).2 = true
      ∧ attempts_of (download_process_item now1 (FetchRes.err msg) it).1 = 10
      ∧ (download_process_item now1 (FetchRes.err msg) it).1.upload_info = it.upload_info
      ∧ (∀ (now2 : Nat) (fr : FetchRes),
          (download_process_item now2 fr
              (download_process_item now1 (FetchRes.err msg) it).1).2 = false
            ∧ upload_error_type (download_process_item now2 fr
                (download_process_item now1 (FetchRes.err msg) it).1).1
              = some UploadErrorType.max_download_attempts)
      ∧ (∀ (tr : List LifeEvent),
          (life_run (download_process_item now1 (FetchRes.err msg) it).1 tr).2 = 0) := by
  have hspec := media_kind_not_special _ hkind
  have hr1 : download_process_item now1 (FetchRes.err msg) it
      = (handle_download_failure now1 msg it, true) := by
    simp only [download_process_item, hspec, Bool.false_eq_true, if_false, hdl]
    rw [if_neg (by rw [hatt]; decide)]
  have hatt1 : attempts_of (handle_download_failure now1 msg it) = 10 := by
    rw [attempts_of_handle_download_failure, hatt]
  have hkind1 : is_media_kind (handle_download_failure now1 msg it).media_type = true := hkind
  have hdl1 : (handle_download_failure now1 msg it).is_downloaded = false := hdl
  refine ⟨by rw [hr1], by rw [hr1]; exact hatt1, by rw [hr1]; rfl, ?_, ?_⟩
  · intro now2 fr
    rw [hr1]
    have hstep : download_process_item now2 fr (handle_download_failure now1 msg it)
        = (handle_max_attempts now2 (handle_download_failure now1 msg it), false) := by
      simp only [download_process_item, media_kind_not_special _ hkind1,
        Bool.false_eq_true, if_false, hdl1]
      rw [if_pos (by rw [hatt1]; decide)]
    rw [hstep]
    exact ⟨rfl, upload_error_type_handle_max_attempts _ _⟩
  · intro tr
    rw [hr1]
    exact life_run_no_fetch tr _ hkind1 (by rw [hatt1]; decide)

/-- An image item with nine failed download attempts on record. -/
def c5_item : Item :=
  { test_item with
      is_downloaded := false, disk_size := none,
      download_info := some
        { success := some false, error_type := some ("download_error"),
          message := some ("t".toList), timestamp := some 3,
          download_attempts := some 9, size_bytes := none } }

theorem c5_witness :
    is_media_kind c5_item.media_type = true
      ∧ c5_item.is_downloaded = false
      ∧ attempts_of c5_item = 9
      ∧ attempts_of (download_process_item 11 (FetchRes.err ("t/o".toList)) c5_item).1 = 10
      ∧ (life_run (download_process_item 11 (FetchRes.err ("t/o".toList)) c5_item).1
          [LifeEvent.download (FetchRes.ok 3) 12,
           LifeEvent.uploadFail (UError.apiError ("E") []) 13,
           LifeEvent.download (FetchRes.err []) 14,
           LifeEvent.uploadCheck]).2 = 0 :=
  ⟨by decide, by decide, by decide,
   (c5_attempts_ceiling c5_item 11 ("t/o".toList) (by decide) (by decide) (by decide)).2.1,
   (c5_attempts_ceiling c5_item 11 ("t/o".toList) (by decide) (by decide)
      (by decide)).2.2.2.2 _⟩

/-!
## Claim C6 — caption truncation
-/

theorem natural_caption_length (it : Item) :
    (natural_caption it).length
      = (caption_base_info it).length + 1 + it.full_text.length := by
  simp [natural_caption]
  omega

/-- C6 (amended): the exact-cap truncation law holds whenever the fixed
author/time block leaves room for the newline and the three-character
ellipsis (`len(base_info) + 4 ≤ 1024`); for longer author/time blocks the
Python slice `text[:remaining - 3]` runs with a negative bound and the
produced caption overshoots the cap (see the counterexample). -/
theorem c6_caption_truncation (it : Item)
    (hbase : (caption_base_info it).length + 4 ≤ TELEGRAM_LIMIT_CAPTION)
    (hlong : TELEGRAM_LIMIT_CAPTION < (natural_caption it).length) :
    (build_caption it).length = TELEGRAM_LIMIT_CAPTION
      ∧ (build_caption it).drop (TELEGRAM_LIMIT_CAPTION - 3) = ('.') :: ('.') :: ('.') :: []
      ∧ build_caption it
          = caption_base_info it ++ ('\n')
              :: (it.full_text.take
                    (TELEGRAM_LIMIT_CAPTION - (caption_base_info it).length - 4)
                  ++ ('.') :: ('.') :: ('.') :: []) := by
  rw [natural_caption_length] at hlong
  unfold TELEGRAM_LIMIT_CAPTION at hbase hlong
  have hcond : ((TELEGRAM_LIMIT_CAPTION : Int) - ((caption_base_info it).length : Int) - 1)
      < ((it.full_text.length : Nat) : Int) := by
    unfold TELEGRAM_LIMIT_CAPTION
    omega
  have hpos : (0 : Int)
      ≤ (TELEGRAM_LIMIT_CAPTION : Int) - ((caption_base_info it).length : Int) - 1 - 3 := by
    unfold TELEGRAM_LIMIT_CAPTION
    omega
  have htonat : (((TELEGRAM_LIMIT_CAPTION : Int) - ((caption_base_info it).length : Int)
        - 1 - 3)).toNat = 1024 - (caption_base_info it).length - 4 := by
    unfold TELEGRAM_LIMIT_CAPTION
    omega
  have heq : build_caption it
      = caption_base_info it ++ ('\n')
          :: (it.full_text.take (1024 - (caption_base_info it).length - 4)
              ++ ('.') :: ('.') :: ('.') :: []) := by
    simp only [build_caption]
    rw [if_pos hcond]
    simp only [py_slice_to]
    rw [if_pos hpos]
    rw [htonat]
  refine ⟨?_, ?_, by rw [heq]; rfl⟩
  · rw [heq]
    simp only [List.length_append, List.length_cons, List.length_take, List.length_nil]
    unfold TELEGRAM_LIMIT_CAPTION
    omega
  · rw [heq]
    have hsplit : caption_base_info it ++ ('\n')
          :: (it.full_text.take (1024 - (caption_base_info it).length - 4)
              ++ ('.') :: ('.') :: ('.') :: [])
        = (caption_base_info it ++ ('\n')
            :: it.full_text.take (1024 - (caption_base_info it).length - 4))
          ++ ('.') :: ('.') :: ('.') :: [] := by
      simp
    rw [hsplit]
    have hlen : (caption_base_info it ++ ('\n')
          :: it.full_text.take (1024 - (caption_base_info it).length - 4)).length
        = TELEGRAM_LIMIT_CAPTION - 3 := by
      simp only [List.length_append, List.length_cons, List.length_take, List.length_nil]
      unfold TELEGRAM_LIMIT_CAPTION
      omega
    rw [← hlen]
    exact List.drop_left _ _

/-- An item whose author line alone nearly fills the caption cap
(`base_info` is 1023 characters), with a 4-character text. -/
def c6_long_author_item : Item :=
  { test_item with
      screen_name := List.replicate 1020 ('a'), user_name := [],
      publish_time_fmt := [], full_text := ('a') :: ('b') :: ('c') :: ('d') :: [] }

theorem c6_long_author_base_len :
    (caption_base_info c6_long_author_item).length = 1023 := by
  unfold caption_base_info
  have h1 : c6_long_author_item.screen_name = List.replicate 1020 ('a') := rfl
  have h2 : c6_long_author_item.user_name = [] := rfl
  have h3 : c6_long_author_item.publish_time_fmt = [] := rfl
  rw [h1, h2, h3]
  simp only [List.length_cons, List.length_append, List.length_replicate,
    List.length_nil]

/-- C6 counterexample: this item's natural caption exceeds the cap
(1028 > 1024), yet the produced caption is 1028 characters long, not
exactly 1024: with `remaining = 0` the Python slice `text[:remaining-3]`
keeps `len(text) - 3` characters counted from the end instead of an
empty budget, so the claim's "length exactly equal to the cap" fails. -/
theorem c6_counterexample :
    TELEGRAM_LIMIT_CAPTION < (natural_caption c6_long_author_item).length
      ∧ (build_caption c6_long_author_item).length = 1028
      ∧ (build_caption c6_long_author_item).length ≠ TELEGRAM_LIMIT_CAPTION := by
  have htext : c6_long_author_item.full_text.length = 4 := rfl
  have hnat : (natural_caption c6_long_author_item).length = 1028 := by
    rw [natural_caption_length, c6_long_author_base_len, htext]
  have hbuild : (build_caption c6_long_author_item).length = 1028 := by
    simp only [build_caption]
    rw [if_pos ?hcond]
    case hcond =>
      rw [c6_long_author_base_len, htext]
      norm_num [TELEGRAM_LIMIT_CAPTION]
    simp only [py_slice_to]
    rw [if_neg ?hneg]
    case hneg =>
      rw [c6_long_author_base_len]
      norm_num [TELEGRAM_LIMIT_CAPTION]
    simp only [List.length_append, List.length_cons, List.length_take,
      List.length_nil, c6_long_author_base_len, htext]
    norm_num [TELEGRAM_LIMIT_CAPTION]
    decide
  refine ⟨by rw [hnat]; decide, hbuild, by rw [hbuild]; decide⟩

/-- An item with a short author line and a 1020-character text. -/
def c6_long_text_item : Item :=
  { test_item with full_text := List.replicate 1020 ('x') }

theorem c6_witness :
    ((caption_base_info c6_long_text_item).length + 4 ≤ TELEGRAM_LIMIT_CAPTION
        ∧ TELEGRAM_LIMIT_CAPTION < (natural_caption c6_long_text_item).length)
      ∧ (build_caption c6_long_text_item).length = TELEGRAM_LIMIT_CAPTION := by
  have hbase : (caption_base_info c6_long_text_item).length = 6 := rfl
  have h1 : (caption_base_info c6_long_text_item).length + 4 ≤ TELEGRAM_LIMIT_CAPTION := by
    rw [hbase]; decide
  have h2 : TELEGRAM_LIMIT_CAPTION < (natural_caption c6_long_text_item).length := by
    rw [natural_caption_length, hbase]
    have hft : c6_long_text_item.full_text = List.replicate 1020 ('x') := rfl
    rw [hft, List.length_replicate]
    decide
  exact ⟨⟨h1, h2⟩, (c6_caption_truncation c6_long_text_item h1 h2).1⟩

/-!
## Claim C4 — batch atomicity on count mismatch
-/

/-- C4: when the publisher's response list length differs from the
number of submitted batch items, the `ValueError` makes the whole batch
fail: the run's uploaded flags are exactly the ones it started with (so
no item becomes uploaded), and every item that is not uploaded — in
particular every batch member — ends with the stored `ValueError`
failure outcome, never a success. -/
theorem c4_batch_atomicity (now : Nat) (ids : List Nat) (items : List Item)
    (hm : (group_prepared now items).media ≠ [])
    (hlen : ids.length ≠ (group_prepared now items).media.length) :
    (process_group now (Except.ok ids) items).1
        = items.map (fun it => if it.is_uploaded then it
            else overwrite_fail
              (UError.apiError ("ValueError")
                (value_error_msg ids.length (group_prepared now items).media.length))
              now it)
      ∧ (process_group now (Except.ok ids) items).1.map (fun it => it.is_uploaded)
          = items.map (fun it => it.is_uploaded)
      ∧ ∀ it' ∈ (process_group now (Except.ok ids) items).1,
          it'.is_uploaded = false →
            it'.upload_info = some (build_error_info
              (UError.apiError ("ValueError")
                (value_error_msg ids.length (group_prepared now items).media.length))
              now) := by
  have hmain := process_group_mismatch_closed now ids items hm hlen
  refine ⟨hmain, ?_, ?_⟩
  · rw [hmain, List.map_map]
    apply List.map_congr_left
    intro q _
    by_cases h : q.is_uploaded <;> simp [h, overwrite_fail]
  · intro it' hmem hup
    rw [hmain] at hmem
    obtain ⟨it, _, rfl⟩ := List.mem_map.mp hmem
    by_cases h : it.is_uploaded
    · rw [if_pos h] at hup ⊢
      exact absurd hup (by simp [h])
    · rw [if_neg h]
      rfl

/-- One good media item next to `test_item` so that a group has a
non-empty batch yet receives an empty response list. -/
def c4_witness_items : List Item := [test_item]

theorem c4_witness :
    ((group_prepared 0 c4_witness_items).media ≠ []
        ∧ ([] : List Nat).length ≠ (group_prepared 0 c4_witness_items).media.length)
      ∧ (process_group 0 (Except.ok []) c4_witness_items).1.map (fun it => it.is_uploaded)
          = c4_witness_items.map (fun it => it.is_uploaded) :=
  ⟨⟨by decide, by decide⟩,
   (c4_batch_atomicity 0 [] c4_witness_items (by decide) (by decide)).2.1⟩

/-!
## Claim C9 — batch failure hits the whole post-group
-/

/-- C9: when the group's batch publish raises, the failure outcome is
written onto *every* not-yet-uploaded item of the whole post-group —
also those never submitted in the batch (already terminal, oversize, or
left over beyond the 10-item cap) — overwriting the existing upload
outcome (`notification_sent` comes back `false` from
`_build_error_info`) and resetting `is_downloaded`; already-uploaded
items are untouched. -/
theorem c9_group_failure_frame (now : Nat) (c : String) (msg : List Char)
    (items : List Item) (hm : (group_prepared now items).media ≠ []) :
    (process_group now (Except.error (c, msg)) items).1
        = items.map (fun it => if it.is_uploaded then it
            else overwrite_fail (UError.apiError c msg) now it)
      ∧ ∀ it' ∈ (process_group now (Except.error (c, msg)) items).1,
          it'.is_uploaded = false →
            (it'.upload_info.map (fun u => u.notification_sent)) = some (some false)
              ∧ it'.is_downloaded = false := by
  have hmain := process_group_error_closed now c msg items hm
  refine ⟨hmain, ?_⟩
  intro it' hmem hup
  rw [hmain] at hmem
  obtain ⟨it, _, rfl⟩ := List.mem_map.mp hmem
  by_cases h : it.is_uploaded
  · rw [if_pos h] at hup
    exact absurd hup (by simp [h])
  · rw [if_neg h]
    exact ⟨rfl, rfl⟩

/-- An already-uploaded item. -/
def c9_uploaded_item : Item :=
  { test_item with
      file_name := "u9", is_uploaded := true,
      upload_info := some (build_success_info 7 0) }

/-- An item carrying the download-exhaustion terminal condition with the
alert already recorded (`notification_sent = true`). -/
def c9_terminal_item : Item :=
  { test_item with
      file_name := "t9", is_downloaded := false, disk_size := none,
      upload_info := some
        { success := some false,
          error_type := some UploadErrorType.max_download_attempts,
          message := some max_attempts_message, timestamp := some 2,
          notification_sent := some true, message_id := none } }

/-- An oversize video (51 MiB > 50 MiB). -/
def c9_oversize_item : Item :=
  { test_item with
      file_name := "o9", media_type := MediaType.videos,
      disk_size := some (51 * 1024 * 1024) }

/-- Eleven good images — one more than the 10-item batch cap, so one is
left over beyond the cap. -/
def c9_good_items : List Item :=
  (List.range 11).map (fun i => { test_item with file_name := Nat.repr i })

/-- A post-group exercising every exclusion: an uploaded item, a
terminal item, an oversize item, and a beyond-the-cap leftover. -/
def c9_items : List Item :=
  c9_uploaded_item :: c9_terminal_item :: c9_oversize_item :: c9_good_items

theorem c9_witness :
    (group_prepared 9 c9_items).media ≠ []
      ∧ (process_group 9 (Except.error (("Timeout"), ('x') :: [])) c9_items).1
          = c9_items.map (fun it => if it.is_uploaded then it
              else overwrite_fail (UError.apiError ("Timeout") (('x') :: [])) 9 it) :=
  ⟨by decide,
   (c9_group_failure_frame 9 ("Timeout") (('x') :: []) c9_items (by decide)).1⟩

/-!
## Claim C3 — batch failure never aborts the run
-/

/-- C3: (i) on a publisher failure every still-pending item of the group
— in particular every still-pending batch candidate — receives the
individual stored failure outcome produced by the error classifier;
(ii) the same holds for a count mismatch (`ValueError`); (iii) at run
level, with the configuration present, batch failures never abort: the
run returns normally for every oracle outcome, and only a load or save
failure produces an error result. -/
theorem c3_batch_failure_isolated :
    (∀ (now : Nat) (c : String) (msg : List Char) (items : List Item),
        (group_prepared now items).media ≠ [] →
        ∀ it' ∈ (process_group now (Except.error (c, msg)) items).1,
          it'.is_uploaded = false →
            it'.upload_info = some (build_error_info (UError.apiError c msg) now))
      ∧ (∀ (now : Nat) (ids : List Nat) (items : List Item),
          (group_prepared now items).media ≠ [] →
          ids.length ≠ (group_prepared now items).media.length →
          ∀ it' ∈ (process_group now (Except.ok ids) items).1,
            it'.is_uploaded = false →
              it'.upload_info = some (build_error_info
                (UError.apiError ("ValueError")
                  (value_error_msg ids.length (group_prepared now items).media.length))
                now))
      ∧ (∀ (env : Env) (data : List Item) (saveOk : Bool) (now : Nat)
          (fs : List FetchRes) (ss : List SendRes)
          (pubs : List (Except (String × List Char) (List Nat))),
          env.bot_token.isSome = true → env.chat_id.isSome = true →
          process_single_run env (Except.ok data) saveOk now fs ss pubs
            = if saveOk then
                Except.ok (run_groups now fs ss pubs (group_by_post data))
              else Except.error RunError.saveFailed)
      ∧ (∀ (env : Env) (saveOk : Bool) (now : Nat) (fs : List FetchRes)
          (ss : List SendRes) (pubs : List (Except (String × List Char) (List Nat))),
          process_single_run env (Except.error ()) saveOk now fs ss pubs
            = Except.error RunError.loadFailed) := by
  refine ⟨?_, ?_, ?_, ?_⟩
  · intro now c msg items hm it' hmem hup
    rw [process_group_error_closed now c msg items hm] at hmem
    obtain ⟨it, _, rfl⟩ := List.mem_map.mp hmem
    by_cases h : it.is_uploaded
    · rw [if_pos h] at hup
      exact absurd hup (by simp [h])
    · rw [if_neg h]
      rfl
  · intro now ids items hm hlen it' hmem hup
    rw [process_group_mismatch_closed now ids items hm hlen] at hmem
    obtain ⟨it, _, rfl⟩ := List.mem_map.mp hmem
    by_cases h : it.is_uploaded
    · rw [if_pos h] at hup
      exact absurd hup (by simp [h])
    · rw [if_neg h]
      rfl
  · intro env data saveOk now fs ss pubs hbt hci
    have hcond : (env.bot_token.isNone || env.chat_id.isNone) = false := by
      rw [Bool.or_eq_false_iff]
      constructor
      · exact Option.isNone_eq_false_iff _ |>.mpr hbt
      · exact Option.isNone_eq_false_iff _ |>.mpr hci
    simp only [process_single_run, hcond, Bool.false_eq_true, if_false]
  · intro env saveOk now fs ss pubs
    rfl

def c3_env : Env :=
  { bot_token := some ("b"), chat_id := some ("c"), lark_key := none }

def c3_pubs : List (Except (String × List Char) (List Nat)) :=
  [Except.error (("Boom"), [])]

theorem c3_witness :
    ((group_prepared 0 [test_item]).media ≠ []
        ∧ ∀ it' ∈ (process_group 0 (Except.error (("Boom"), ('m') :: [])) [test_item]).1,
            it'.is_uploaded = false →
              it'.upload_info
                = some (build_error_info (UError.apiError ("Boom") (('m') :: [])) 0))
      ∧ process_single_run c3_env (Except.ok [test_item]) true 0 [] [] c3_pubs
          = Except.ok (run_groups 0 [] [] c3_pubs (group_by_post [test_item])) :=
  ⟨⟨by decide,
    c3_batch_failure_isolated.1 0 ("Boom") (('m') :: []) [test_item] (by decide)⟩,
   (c3_batch_failure_isolated.2.2.1 c3_env [test_item] true 0 [] [] c3_pubs rfl rfl).trans
     (if_pos rfl)⟩

/-!
## Claim C1 — at-most-once alerting
-/

/-- C1 (amended): across any number of consecutive
`_has_unrecoverable_error` re-evaluations with no intervening
`_handle_upload_error`, the terminal-condition alert fires at most once,
and when it has fired the persisted `notification_sent` flag records it.
The unqualified lifetime claim is false: `_handle_upload_error` — run on
every still-pending group member when a batch publish fails — replaces
the outcome with `notification_sent = false`, after which the alert can
fire again (see the counterexample). -/
theorem c1_alert_once_between_overwrites (it : Item) (n : Nat) :
    (iterate_check it n).2.length ≤ 1
      ∧ ((iterate_check it n).2 ≠ [] → notif_flag (iterate_check it n).1 = true) := by
  cases n with
  | zero => exact ⟨by simp [iterate_check], by simp [iterate_check]⟩
  | succ n =>
      rcases has_unrecoverable_error_cases it with ⟨heq, hstable⟩ | ⟨hlen, hflag⟩
      · have hrun : iterate_check it (n + 1) = (it, []) := iterate_check_stable it hstable (n + 1)
        rw [hrun]
        exact ⟨by simp, by simp⟩
      · have hstable' : notif_flag ((has_unrecoverable_error it).2.1) = true
            ∨ terminal_condition ((has_unrecoverable_error it).2.1) = false := Or.inl hflag
        have hrest := iterate_check_stable _ hstable' n
        simp only [iterate_check, hrest]
        refine ⟨by simp [hlen], fun _ => ?_⟩
        exact hflag

/-- A fresh file-too-large condition with the alert not yet sent. -/
def c1_pending_terminal_item : Item :=
  { test_item with
      file_name := "A1",
      upload_info := some (build_error_info
        (UError.fileTooLarge (('b') :: ('i') :: ('g') :: [])) 1) }

theorem c1_witness :
    (iterate_check c1_pending_terminal_item 3).2.length ≤ 1
      ∧ notif_flag (iterate_check c1_pending_terminal_item 3).1 = true :=
  ⟨(c1_alert_once_between_overwrites c1_pending_terminal_item 3).1,
   (c1_alert_once_between_overwrites c1_pending_terminal_item 3).2 (by decide)⟩

/-- Item `A` — an oversize image (11 MiB > 10 MiB), downloaded and pending. -/
def c1_item_A : Item :=
  { test_item with file_name := "A", disk_size := some (11 * 1024 * 1024) }

/-- Item `C` — a good pending image of the same post. -/
def c1_item_C : Item :=
  { test_item with file_name := "C", disk_size := some 1000 }

/-- Item `D` — a later-arriving good pending image of the same post. -/
def c1_item_D : Item :=
  { test_item with file_name := "D", disk_size := some 100 }

/-- Run 1: the group `[A, C]` is published; `A` is excluded as oversize
and gets a fresh `file_too_large` outcome, `C` uploads. -/
def c1_run1 : List Item × List SendRes × List Alert :=
  process_items 1 [] (Except.ok [101]) [c1_item_A, c1_item_C]

/-- Run 2: only `A` is pending → single path; `_has_unrecoverable_error`
fires the first `file_too_large` alert and sets `notification_sent`. -/
def c1_run2 : List Item × List SendRes × List Alert :=
  process_items 2 [] (Except.ok []) c1_run1.1

/-- Run 3: a new item `D` joined the post; the batch publish raises, so
the `except` branch overwrites `A`'s outcome (`api_error`,
`notification_sent = false`). -/
def c1_run3 : List Item × List SendRes × List Alert :=
  process_items 3 [] (Except.error (("TimedOut"), ('b') :: [])) (c1_run2.1 ++ [c1_item_D])

/-- Run 4: `A` (no longer terminal-typed) is size-checked again and gets
a fresh `file_too_large` outcome with `notification_sent = false`;
`D` uploads. -/
def c1_run4 : List Item × List SendRes × List Alert :=
  process_items 4 [] (Except.ok [102]) c1_run3.1

/-- Run 5: only `A` is pending → `_has_unrecoverable_error` fires a
second `file_too_large` alert for the same item. -/
def c1_run5 : List Item × List SendRes × List Alert :=
  process_items 5 [] (Except.ok []) c1_run4.1

/-- All outward alerts of the five-run lifetime. -/
def c1_lifetime_alerts : List Alert :=
  c1_run1.2.2 ++ c1_run2.2.2 ++ c1_run3.2.2 ++ c1_run4.2.2 ++ c1_run5.2.2

/-- C1 counterexample: across this realizable five-run lifetime the
unrecoverable-condition alert for item `A`'s `file_too_large` condition
fires twice — the persisted `notification_sent` flag is reset by the
batch-failure overwrite in run 3 — refuting "at most once across the
item's whole lifetime". -/
theorem c1_counterexample :
    c1_lifetime_alerts.count
        (Alert.unrecoverable ("A") UploadErrorType.file_too_large) = 2 := by
  decide

/-!
## Claim C2 — grouping
-/

/-- C2 (amended): over the items that possess a `tweet_id`, the grouping
is the stable partition the spec describes — first-seen key order, each
group holding exactly the original-order subsequence of items with that
id — but an item lacking a `tweet_id` is logged and dropped from
processing entirely (it joins no group), not kept as a singleton
group. -/
theorem c2_grouping_stable_partition (items : List Item) :
    group_by_post items = group_by_post_spec items
      ∧ ∀ it ∈ items, it.tweet_id = none →
          ∀ g ∈ group_by_post items, it ∉ g.2 := by
  refine ⟨group_by_post_eq_spec items, ?_⟩
  intro it _ hnone g hg
  rw [group_by_post_eq_spec items] at hg
  obtain ⟨t, _, rfl⟩ := List.mem_map.mp hg
  intro hmem
  have := List.of_mem_filter hmem
  rw [hnone] at this
  simp at this

/-- An item whose record lacks the `tweet_id` key. -/
def c2_no_id_item : Item :=
  { test_item with file_name := "noid", tweet_id := none }

/-- C2 counterexample: an item without a post identifier yields *no*
group at all — it is skipped (`continue`) by the grouping loop — whereas
the claim requires it to become its own singleton group. -/
theorem c2_counterexample :
    group_by_post [c2_no_id_item] = ([] : List (Nat × List Item)) := by
  decide

def c2_item_one : Item := { test_item with file_name := "g1", tweet_id := some 5 }

def c2_item_two : Item := { test_item with file_name := "g2", tweet_id := some 7 }

def c2_item_three : Item := { test_item with file_name := "g3", tweet_id := some 5 }

def c2_mixed : List Item := [c2_item_one, c2_no_id_item, c2_item_two, c2_item_three]

theorem c2_witness :
    group_by_post c2_mixed = group_by_post_spec c2_mixed
      ∧ c2_no_id_item ∉ (((group_by_post c2_mixed).headD (0, [])).2) :=
  ⟨(c2_grouping_stable_partition c2_mixed).1,
   (c2_grouping_stable_partition c2_mixed).2 c2_no_id_item (by decide) rfl
     ((group_by_post c2_mixed).headD (0, [])) (by decide)⟩

/-!
## Claim C10 — single-item groups take the single-message path
-/

/-- C10: a post-group whose pending items are exactly one eligible media
item (downloaded, no terminal condition, file present and within the
size ceiling) is published through the single-message path — the media
group publisher response is never consulted — and on success the item
reaches exactly the state the batch path would give it:
`is_uploaded = true` with `Success{message_id, timestamp}`. -/
theorem c10_single_path_refinement (items : List Item) (m : Item)
    (now mid sz : Nat)
    (hpend : items.filter (fun it => ! it.is_uploaded) = [m])
    (hkind : is_media_kind m.media_type = true)
    (hft : upload_error_type m ≠ some UploadErrorType.file_too_large)
    (hmda : upload_error_type m ≠ some UploadErrorType.max_download_attempts)
    (hdl : m.is_downloaded = true)
    (hdisk : m.disk_size = some sz)
    (hsz : sz ≤ telegram_size_limit m.media_type) :
    (∀ (pub pub' : Except (String × List Char) (List Nat)),
        process_items now [Except.ok mid] pub items
          = process_items now [Except.ok mid] pub' items)
      ∧ (∀ (pub : Except (String × List Char) (List Nat)),
          process_items now [Except.ok mid] pub items
            = (replace_where pending_media items
                [{ m with is_uploaded := true,
                          upload_info := some (build_success_info mid now) }], [], []))
      ∧ (process_group now (Except.ok [mid]) [m]).1
          = [{ m with is_uploaded := true,
                      upload_info := some (build_success_info mid now) }] := by
  have hmem_filter : m ∈ items.filter (fun it => ! it.is_uploaded) := by
    rw [hpend]; exact List.mem_cons_self m []
  have hmem : m ∈ items := List.mem_of_mem_filter hmem_filter
  have hup : m.is_uploaded = false := by
    have := List.of_mem_filter hmem_filter
    simpa using this
  have hunrec := has_unrecoverable_error_not_terminal m hft hmda
  have hall : items.all (fun it => it.is_uploaded) = false := by
    cases h : items.all (fun it => it.is_uploaded) with
    | true => exact absurd (List.all_eq_true.mp h m hmem) (by simp [hup])
    | false => rfl
  have htext : ∀ (ss : List SendRes), process_text_items now ss items = (items, ss, []) := by
    intro ss
    apply process_text_items_noop
    intro it hit
    by_cases hu : it.is_uploaded
    · exact Or.inl hu
    · have : it ∈ items.filter (fun x => ! x.is_uploaded) :=
        List.mem_filter.mpr ⟨hit, by simp [hu]⟩
      rw [hpend] at this
      have heq : it = m := by simpa using this
      right
      rw [heq]
      exact media_kind_not_special _ hkind
  have hmedia : items.filter pending_media = [m] := by
    unfold pending_media
    rw [← List.filter_filter]
    rw [hpend]
    simp [List.filter_cons, hkind]
  have hshould : should_upload m = (true, m, []) := by
    simp only [should_upload, hup, Bool.false_eq_true, if_false, hunrec]
    simp [media_kind_not_special _ hkind, hdl]
  have htry : try_send_single m [Except.ok mid] = (Except.ok mid, []) := by
    simp only [try_send_single, media_kind_not_special _ hkind, Bool.false_eq_true,
      if_false, hdisk]
    rw [if_neg (Nat.not_lt.mpr hsz)]
    rfl
  have hpsi : process_single_item now [Except.ok mid] m
      = ({ m with is_uploaded := true,
                  upload_info := some (build_success_info mid now) }, [], []) := by
    simp only [process_single_item, hshould, htry]
    simp
  have hmain : ∀ (pub : Except (String × List Char) (List Nat)),
      process_items now [Except.ok mid] pub items
        = (replace_where pending_media items
            [{ m with is_uploaded := true,
                      upload_info := some (build_success_info mid now) }], [], []) := by
    intro pub
    simp only [process_items, hall, Bool.false_eq_true, if_false, htext, hmedia, hpsi]
    simp
  have hgf : get_file m = Except.ok (FilePayload.localFile m.file_name) := by
    simp only [get_file, media_kind_not_special _ hkind, Bool.false_eq_true, if_false,
      hdisk]
    rw [if_neg (Nat.not_lt.mpr hsz)]
  have hgroup : (process_group now (Except.ok [mid]) [m]).1
      = [{ m with is_uploaded := true,
                  upload_info := some (build_success_info mid now) }] := by
    have hprep : group_prepared now [m]
        = { marked := [(m, true)],
            media := [{ payload := FilePayload.localFile m.file_name,
                        kind := m.media_type,
                        caption := some (build_caption m) }],
            alerts := [] } := by
      simp only [group_prepared, prepare_media_group]
      simp [hup, hunrec, media_kind_not_special _ hkind, hgf, prepare_media_group,
        TELEGRAM_LIMIT_MEDIA_GROUP]
    simp only [process_group, hprep]
    rfl
  exact ⟨fun pub pub' => (hmain pub).trans (hmain pub').symm, hmain, hgroup⟩

/-- An already-uploaded sibling in the same post. -/
def c10_uploaded_item : Item :=
  { test_item with
      file_name := "u10", is_uploaded := true,
      upload_info := some (build_success_info 1 0) }

/-- The single pending, eligible media item. -/
def c10_media_item : Item :=
  { test_item with file_name := "m10" }

def c10_items : List Item := [c10_uploaded_item, c10_media_item]

theorem c10_witness :
    process_items 3 [Except.ok 77] (Except.error (("X"), [])) c10_items
        = (replace_where pending_media c10_items
            [{ c10_media_item with
                is_uploaded := true,
                upload_info := some (build_success_info 77 3) }], [], [])
      ∧ (process_group 3 (Except.ok [77]) [c10_media_item]).1
          = [{ c10_media_item with
                is_uploaded := true,
                upload_info := some (build_success_info 77 3) }] := by
  have h := c10_single_path_refinement c10_items c10_media_item 3 77 100
    (by decide) (by decide) (by decide) (by decide) (by decide) rfl (by decide)
  exact ⟨h.2.1 (Except.error (("X"), [])), h.2.2⟩
